import Mathlib

/-!
Shallow embedding of the `cross_contract_flipper` ink! contract
(src/lib.rs) and proofs of the specification's claims about it.

The contract state is the `#[ink(storage)]` struct `CrossContractFlipper`
with a packed `value: bool` field and a `delegate_to: Lazy<Hash>` field.
The messages are `call_delegate_flip` (issues a delegate call to the
stored code hash, selector derived from the name "flip", result of
`try_invoke` discarded) and `get` (returns `value`).  The constructor
`new` writes the code hash into the lazy cell, registers a delegate
dependency lock, and returns the storage struct.

Modelling conventions:
  - `Hash` is a `Nat` (opaque fixed-width content identifier).
  - A panicking path (`.expect`) is `none`; a normal return is `some`.
  - The host's delegate-call primitive is a parameter
    `env : DelegateEnv`, mapping the call request and the *caller's*
    storage to `none` (the callee reverted / was absent / selector did
    not match) or `some s'` (the storage the foreign code left behind —
    delegate calls execute foreign code against the caller's storage).
  - Host-visible effects are collected in a trace (`Effect`), in program
    order, so ordering claims can be stated.
  - `ink::selector_bytes!("flip")` expands at compile time to the first
    four bytes of the BLAKE2b-256 hash of the message name; `blake2b_256`
    below implements that hash (for single-block inputs, which covers
    every message name) so the derivation itself is checked.
-/

namespace Flipper

/-! BLAKE2b-256 (RFC 7693), for messages of at most 128 bytes (one
block), which suffices for entry-point names.  Words are `Nat`s reduced
mod 2^64. -/

def MASK64 : Nat := 2 ^ 64

def add64 (a b : Nat) : Nat := (a + b) % MASK64

def rotr64 (x n : Nat) : Nat := ((x >>> n) ||| (x <<< (64 - n))) % MASK64

def IV : List Nat :=
  [0x6a09e667f3bcc908, 0xbb67ae8584caa73b, 0x3c6ef372fe94f82b, 0xa54ff53a5f1d36f1,
   0x510e527fade682d1, 0x9b05688c2b3e6c1f, 0x1f83d9abfb41bd6b, 0x5be0cd19137e2179]

def SIGMA : List (List Nat) :=
  [[0, 1, 2, 3, 4, 5, 6, 7, 8, 9, 10, 11, 12, 13, 14, 15],
   [14, 10, 4, 8, 9, 15, 13, 6, 1, 12, 0, 2, 11, 7, 5, 3],
   [11, 8, 12, 0, 5, 2, 15, 13, 10, 14, 3, 6, 7, 1, 9, 4],
   [7, 9, 3, 1, 13, 12, 11, 14, 2, 6, 5, 10, 4, 0, 15, 8],
   [9, 0, 5, 7, 2, 4, 10, 15, 14, 1, 11, 12, 6, 8, 3, 13],
   [2, 12, 6, 10, 0, 11, 8, 3, 4, 13, 7, 5, 15, 14, 1, 9],
   [12, 5, 1, 15, 14, 13, 4, 10, 0, 7, 6, 3, 9, 2, 8, 11],
   [13, 11, 7, 14, 12, 1, 3, 9, 5, 0, 15, 4, 8, 6, 2, 10],
   [6, 15, 14, 9, 11, 3, 0, 8, 12, 2, 13, 7, 1, 4, 10, 5],
   [10, 2, 8, 4, 7, 6, 1, 5, 15, 11, 9, 14, 3, 12, 13, 0]]

def getw (v : List Nat) (i : Nat) : Nat := v.getD i 0

def gMix (v : List Nat) (a b c d x y : Nat) : List Nat :=
  let va := add64 (add64 (getw v a) (getw v b)) x
  let vd := rotr64 ((getw v d) ^^^ va) 32
  let vc := add64 (getw v c) vd
  let vb := rotr64 ((getw v b) ^^^ vc) 24
  let va2 := add64 (add64 va vb) y
  let vd2 := rotr64 (vd ^^^ va2) 16
  let vc2 := add64 vc vd2
  let vb2 := rotr64 (vb ^^^ vc2) 63
  ((((v.set a va2).set b vb2).set c vc2).set d vd2)

def blakeRound (m v : List Nat) (r : Nat) : List Nat :=
  let s := SIGMA.getD (r % 10) []
  let mi := fun (i : Nat) => getw m (getw s i)
  let v1 := gMix v 0 4 8 12 (mi 0) (mi 1)
  let v2 := gMix v1 1 5 9 13 (mi 2) (mi 3)
  let v3 := gMix v2 2 6 10 14 (mi 4) (mi 5)
  let v4 := gMix v3 3 7 11 15 (mi 6) (mi 7)
  let v5 := gMix v4 0 5 10 15 (mi 8) (mi 9)
  let v6 := gMix v5 1 6 11 12 (mi 10) (mi 11)
  let v7 := gMix v6 2 7 8 13 (mi 12) (mi 13)
  gMix v7 3 4 9 14 (mi 14) (mi 15)

def bytesToWord (bs : List Nat) : Nat :=
  bs.reverse.foldl (fun acc b => acc * 256 + b % 256) 0

def wordToBytes (w : Nat) : List Nat :=
  [w % 256, w / 256 % 256, w / 256 ^ 2 % 256, w / 256 ^ 3 % 256,
   w / 256 ^ 4 % 256, w / 256 ^ 5 % 256, w / 256 ^ 6 % 256, w / 256 ^ 7 % 256]

def blake2b_256 (msg : List Nat) : List Nat :=
  let h0 := (IV.set 0 ((getw IV 0) ^^^ 0x01010020))
  let padded := msg ++ List.replicate (128 - msg.length) 0
  let m := (List.range 16).map (fun i => bytesToWord ((padded.drop (8 * i)).take 8))
  let v := h0 ++ IV
  let v := v.set 12 ((getw v 12) ^^^ msg.length)
  let v := v.set 14 ((getw v 14) ^^^ (MASK64 - 1))
  let vf := (List.range 12).foldl (fun vv r => blakeRound m vv r) v
  let h := (List.range 8).map (fun i => (getw h0 i) ^^^ (getw vf i) ^^^ (getw vf (i + 8)))
  ((h.map wordToBytes).flatten).take 32

/-- The selector derivation rule used by ink!: the first four bytes of
the BLAKE2b-256 hash of the entry point's name (given as its UTF-8
bytes). -/
def selector_bytes (nameBytes : List Nat) : List Nat :=
  (blake2b_256 nameBytes).take 4

/-- Same derivation, starting from the entry point's name as a string
(all message names are ASCII, so `Char.toNat` gives the UTF-8 bytes). -/
def selector_of_name (name : String) : List Nat :=
  selector_bytes (name.data.map Char.toNat)

/-- Compile-time expansion of the selector macro applied to the literal
name "flip" in src/lib.rs line 56; `flip_selector_derivation` below
proves it equal to `selector_of_name "flip"`. -/
def flip_selector : List Nat := [0x63, 0x3a, 0xa5, 0x51]

/-! The ink! storage and call-building primitives the contract uses. -/

namespace Ink

/-- A lazily loaded storage cell (`ink::storage::Lazy`): its content
lives in its own storage slot, absent until first written. -/
structure Lazy (α : Type) where
  val : Option α
  deriving DecidableEq, Repr

/-- A fresh, unwritten lazy cell (`Lazy::new`). -/
def Lazy.new {α : Type} : Lazy α := ⟨none⟩

/-- Writes the cell's slot (`Lazy::set`). -/
def Lazy.set {α : Type} (_l : Lazy α) (a : α) : Lazy α := ⟨some a⟩

/-- Reads the cell's slot (`Lazy::get`): `none` when never written. -/
def Lazy.get {α : Type} (l : Lazy α) : Option α := l.val

end Ink

/-- Opaque fixed-width content identifier of a unit of code
(`ink::primitives::Hash`). -/
abbrev Hash := Nat

/-- The flag bits of `ink::env::CallFlags`. -/
structure CallFlags where
  forward_input : Bool
  clone_input : Bool
  tail_call : Bool
  allow_reentry : Bool
  deriving DecidableEq, Repr

/-- No flag set (`CallFlags::empty`). -/
def CallFlags.empty : CallFlags := ⟨false, false, false, false⟩

/-- A delegate-call request as assembled by
`build_call::<DefaultEnvironment>().delegate(..).call_flags(..)
.exec_input(ExecutionInput::new(Selector::new(..))).returns::<()>()`:
the target code hash, the flags, the 4-byte selector, the encoded
arguments (empty: `ExecutionInput::new` adds none), and whether the
declared return type is the unit type. -/
structure CallRequest where
  target : Hash
  flags : CallFlags
  selector : List Nat
  args : List Nat
  returns_unit : Bool
  deriving DecidableEq, Repr

/-- The exact request `call_delegate_flip` builds (src/lib.rs lines
56-62) for a stored code hash `h`. -/
def flipRequest (h : Hash) : CallRequest :=
  { target := h
    flags := { CallFlags.empty with tail_call := true }
    selector := flip_selector
    args := []
    returns_unit := true }

/-- Host-visible effects, recorded in program order.  Storage writes
(`storeDelegateTo` for `delegate_to.set`, `storeValue` for the flush of
the packed root slot when the constructor returns) stay inside the
transaction until commit; the dependency-lock registration and delegate
invocations are calls into the host. -/
inductive Effect where
  | storeDelegateTo (h : Hash)
  | lockDelegateDependency (h : Hash)
  | storeValue (b : Bool)
  | invokeDelegate (req : CallRequest)
  deriving DecidableEq, Repr

/-- Whether an effect is externally observable during the transaction:
calls into the host are; the transaction's own storage writes are not
(they land only when the transaction commits). -/
def Effect.observable : Effect → Bool
  | .storeDelegateTo _ => false
  | .lockDelegateDependency _ => true
  | .storeValue _ => false
  | .invokeDelegate _ => true

/-- The `#[ink(storage)]` struct: a packed `value: bool` in the root
slot and a `delegate_to: Lazy<Hash>` in its own slot. -/
structure CrossContractFlipper where
  value : Bool
  delegate_to : Ink.Lazy Hash
  deriving DecidableEq, Repr

/-- The host's delegate-call primitive: a request and the *caller's*
storage go in; `none` comes back when the invocation fails (foreign code
reverted, absent, or the selector matched no entry point), and
`some s'` when it succeeds with the caller's storage rewritten to `s'`
(delegate calls run foreign code against the caller's storage). -/
abbrev DelegateEnv := CallRequest → CrossContractFlipper → Option CrossContractFlipper

/-- The constructor `new(init_value, code_hash)`: writes the code hash
into the lazy cell, locks the delegate dependency on that same hash,
and returns the storage struct — whose packed `value` field the runtime
flushes to the root slot when the constructor returns.  The second
component is the trace of effects, in program order. -/
def CrossContractFlipper.new (init_value : Bool) (code_hash : Hash) :
    CrossContractFlipper × List Effect :=
  let delegate_to := Ink.Lazy.set Ink.Lazy.new code_hash
  ({ value := init_value, delegate_to := delegate_to },
   [Effect.storeDelegateTo code_hash,
    Effect.lockDelegateDependency code_hash,
    Effect.storeValue init_value])

/-- The private method `delegate_to(&self) -> Hash`: reads the lazy
cell and `.expect`s it; an absent value panics, modelled as `none`. -/
def CrossContractFlipper.delegate_to_read (s : CrossContractFlipper) : Option Hash :=
  s.delegate_to.get

/-- The message `call_delegate_flip(&mut self)`: reads the stored hash
(panicking if absent), builds the delegate-call request, issues it with
`try_invoke`, and discards the result (`let _ = ...`), so it returns
normally whether or not the invocation succeeded.  On success the
storage is whatever the foreign code left (the `TAIL_CALL` flag makes
the host return the callee's output directly, so the caller's stale
in-memory struct is not flushed over it); on failure the storage is
unchanged.  Returns the new storage and the effect trace, or `none` for
the panic path. -/
def call_delegate_flip (env : DelegateEnv) (s : CrossContractFlipper) :
    Option (CrossContractFlipper × List Effect) :=
  match s.delegate_to_read with
  | none => none
  | some h =>
      let req := flipRequest h
      match env req s with
      | some s' => some (s', [Effect.invokeDelegate req])
      | none => some (s, [Effect.invokeDelegate req])

/-- The message `get(&self) -> bool`: returns the `value` field.  It is
total (`Bool`, not `Option Bool`): it touches no lazy slot and cannot
panic. -/
def CrossContractFlipper.get (s : CrossContractFlipper) : Bool :=
  s.value

/-- The contract's message surface. -/
inductive Msg where
  | callDelegateFlip
  | getValue
  deriving DecidableEq, Repr

/-- One message call against the contract. -/
def step (env : DelegateEnv) (s : CrossContractFlipper) :
    Msg → Option (CrossContractFlipper × List Effect)
  | .callDelegateFlip => call_delegate_flip env s
  | .getValue => some (s, [])

/-- A sequence of message calls after construction; `none` as soon as
one of them panics. -/
def run (env : DelegateEnv) (s : CrossContractFlipper) :
    List Msg → Option CrossContractFlipper
  | [] => some s
  | m :: ms =>
      match step env s m with
      | none => none
      | some (s', _) => run env s' ms

/-! Storage layout metadata, read off the field declarations of the
`#[ink(storage)]` struct. -/

/-- How a lazily stored field's storage key is chosen: by the codegen
(`AutoKey`, the default for `Lazy<V>`) or explicitly
(`ManualKey<KEY>`). -/
inductive KeyAssignment where
  | autoKey
  | manualKey (key : Nat)
  deriving DecidableEq, Repr

/-- Where a storage field lives: packed into the fixed root slot, or in
its own slot with the given key assignment. -/
inductive FieldLayout where
  | packedInRoot
  | lazySlot (k : KeyAssignment)
  deriving DecidableEq, Repr

/-- A field of the storage struct together with its layout. -/
structure StorageField where
  name : String
  layout : FieldLayout
  deriving DecidableEq, Repr

/-- The declared fields of `CrossContractFlipper` (src/lib.rs lines
28-32): `value: bool` is packed into the root slot; `delegate_to:
Lazy<Hash>` gets its own slot, with the *default* key assignment —
no `ManualKey` parameter appears in the declaration (the use clause on
line 25 brings `ManualKey` into scope but nothing refers to it). -/
def crossContractFlipperFields : List StorageField :=
  [{ name := "value", layout := FieldLayout.packedInRoot },
   { name := "delegate_to", layout := FieldLayout.lazySlot KeyAssignment.autoKey }]

/-! Concrete delegate environments, used as test inputs. -/

/-- A foreign `flip` that toggles the boolean in the `value` slot and
touches nothing else. -/
def env_toggle : DelegateEnv :=
  fun _ s => some { s with value := !s.value }

/-- A host in which every delegate invocation fails. -/
def env_fail : DelegateEnv :=
  fun _ _ => none

/-- A misbehaving delegatee that overwrites the `delegate_to` slot —
delegate calls give the foreign code write access to all of the
caller's storage, so this is a possible behaviour. -/
def env_clobber : DelegateEnv :=
  fun _ s => some { s with delegate_to := ⟨some 99⟩ }

/-! Helper lemmas, shared by the claim theorems below. -/

/-- When the target hash is present, `call_delegate_flip` issues exactly
one request, `flipRequest h`, and keeps either the storage the host
returned (success) or the old storage (failure). -/
theorem call_delegate_flip_eq (env : DelegateEnv) (s : CrossContractFlipper) (h : Hash)
    (hs : s.delegate_to_read = some h) :
    call_delegate_flip env s =
      match env (flipRequest h) s with
      | some s' => some (s', [Effect.invokeDelegate (flipRequest h)])
      | none => some (s, [Effect.invokeDelegate (flipRequest h)]) := by
  unfold call_delegate_flip
  rw [hs]

/-- Whatever the host answers, the trace of a delegate-flip call with a
present target is the single invocation of `flipRequest h`. -/
theorem call_delegate_flip_trace (env : DelegateEnv) (s : CrossContractFlipper) (h : Hash)
    (hs : s.delegate_to_read = some h) :
    (call_delegate_flip env s).map Prod.snd = some [Effect.invokeDelegate (flipRequest h)] := by
  rw [call_delegate_flip_eq env s h hs]
  cases env (flipRequest h) s <;> rfl

/-- If the foreign code never rewrites the `delegate_to` slot, neither
does a single message call. -/
theorem step_preserves_delegate_to (env : DelegateEnv)
    (henv : ∀ r s s', env r s = some s' → s'.delegate_to = s.delegate_to)
    (s : CrossContractFlipper) (m : Msg) (p : CrossContractFlipper × List Effect)
    (hp : step env s m = some p) :
    p.fst.delegate_to = s.delegate_to := by
  cases m with
  | getValue =>
      simp only [step] at hp
      cases hp
      rfl
  | callDelegateFlip =>
      simp only [step] at hp
      cases hd : s.delegate_to_read with
      | none =>
          unfold call_delegate_flip at hp
          rw [hd] at hp
          cases hp
      | some h =>
          rw [call_delegate_flip_eq env s h hd] at hp
          cases he : env (flipRequest h) s with
          | none =>
              rw [he] at hp
              cases hp
              rfl
          | some s' =>
              rw [he] at hp
              cases hp
              exact henv _ _ _ he


/-- If the foreign code never rewrites the `delegate_to` slot, no
message sequence does. -/
theorem run_preserves_delegate_to (env : DelegateEnv)
    (henv : ∀ r s s', env r s = some s' → s'.delegate_to = s.delegate_to) :
    ∀ (msgs : List Msg) (s s' : CrossContractFlipper),
      run env s msgs = some s' → s'.delegate_to = s.delegate_to := by
  intro msgs
  induction msgs with
  | nil =>
      intro s s' hr
      unfold run at hr
      cases hr
      rfl
  | cons m ms ih =>
      intro s s' hr
      unfold run at hr
      cases hstep : step env s m with
      | none =>
          rw [hstep] at hr
          cases hr
      | some p =>
          rw [hstep] at hr
          obtain ⟨ps, pt⟩ := p
          have h1 : run env ps ms = some s' := hr
          have h2 := ih ps s' h1
          rw [h2]
          exact step_preserves_delegate_to env henv s m (ps, pt) hstep

set_option maxRecDepth 4000 in
/-- BLAKE2b-256 derivation of the selector embedded in the contract:
the first four bytes of the hash of the name "flip" are exactly the
bytes the selector macro expanded to. -/
theorem flip_selector_derivation : selector_of_name "flip" = flip_selector := by decide

/-! Claim theorems. -/

/-- C1: for every contract state whose delegate target is stored (true
of every reachable state, cf. `C8_absent_target_aborts`), if the
delegate invocation issued by `call_delegate_flip` fails, the message
still returns normally, its trace shows the failed invocation was
issued and discarded, and the stored `value` field — hence `get()` —
is unchanged. -/
theorem C1_delegate_failure_swallowed (env : DelegateEnv) (s : CrossContractFlipper) (h : Hash)
    (hs : s.delegate_to_read = some h)
    (hfail : env (flipRequest h) s = none) :
    call_delegate_flip env s = some (s, [Effect.invokeDelegate (flipRequest h)]) ∧
    (call_delegate_flip env s).map (fun p => p.fst.get) = some s.get := by
  have heq := call_delegate_flip_eq env s h hs
  rw [hfail] at heq
  exact ⟨heq, by rw [heq]; rfl⟩

/-- Witness for C1, at the post-construction state of `new false 7`
under a host where every invocation fails. -/
theorem C1_witness :
    call_delegate_flip env_fail (CrossContractFlipper.new false 7).fst =
      some ((CrossContractFlipper.new false 7).fst,
            [Effect.invokeDelegate (flipRequest 7)]) ∧
    (call_delegate_flip env_fail (CrossContractFlipper.new false 7).fst).map
        (fun p => p.fst.get) = some (CrossContractFlipper.new false 7).fst.get :=
  C1_delegate_failure_swallowed env_fail (CrossContractFlipper.new false 7).fst 7 rfl rfl

/-- C2: if the foreign flip entry point toggles the boolean in the
`value` slot (and touches nothing else), then from any state with
previous value `v` and a stored target, one successful
`call_delegate_flip` makes `get()` return `!v` and a second one makes
`get()` return `v` again. -/
theorem C2_toggle_involution (env : DelegateEnv) (s : CrossContractFlipper) (h : Hash)
    (hs : s.delegate_to_read = some h)
    (henv : ∀ (h' : Hash) (t : CrossContractFlipper),
        env (flipRequest h') t = some { t with value := !t.value }) :
    ∃ s1 s2 : CrossContractFlipper,
      call_delegate_flip env s = some (s1, [Effect.invokeDelegate (flipRequest h)]) ∧
      s1.get = !s.get ∧
      call_delegate_flip env s1 = some (s2, [Effect.invokeDelegate (flipRequest h)]) ∧
      s2.get = s.get := by
  refine ⟨{ s with value := !s.value }, { s with value := !(!s.value) }, ?_, rfl, ?_, ?_⟩
  · have heq := call_delegate_flip_eq env s h hs
    rw [henv h s] at heq
    exact heq
  · have hs1 : ({ s with value := !s.value } : CrossContractFlipper).delegate_to_read = some h := hs
    have heq := call_delegate_flip_eq env { s with value := !s.value } h hs1
    rw [henv h { s with value := !s.value }] at heq
    exact heq
  · simp [CrossContractFlipper.get]

/-- Witness for C2: from `new false 7` under a toggling host, one call
yields `true` and a second yields `false` again. -/
theorem C2_witness :
    ∃ s1 s2 : CrossContractFlipper,
      call_delegate_flip env_toggle (CrossContractFlipper.new false 7).fst =
        some (s1, [Effect.invokeDelegate (flipRequest 7)]) ∧
      s1.get = !(CrossContractFlipper.new false 7).fst.get ∧
      call_delegate_flip env_toggle s1 = some (s2, [Effect.invokeDelegate (flipRequest 7)]) ∧
      s2.get = (CrossContractFlipper.new false 7).fst.get :=
  C2_toggle_involution env_toggle (CrossContractFlipper.new false 7).fst 7 rfl
    (fun _ _ => rfl)

/-- C3: immediately after construction via `new(init_value, code_hash)`,
`get()` returns `init_value`, for either boolean and any code hash. -/
theorem C3_constructor_initial_value (init_value : Bool) (code_hash : Hash) :
    (CrossContractFlipper.new init_value code_hash).fst.get = init_value := rfl

/-- Counterexample to C4 as stated: the foreign code executes against
the caller's storage, so a delegatee that rewrites the `delegate_to`
slot (here to hash 99) falsifies "for every sequence of message calls
after construction, the stored delegate_to hash equals the codeHash
passed to new": after `new false 7` and one `call_delegate_flip` under
`env_clobber`, the stored hash is 99, not 7. -/
theorem C4_counterexample :
    (run env_clobber (CrossContractFlipper.new false 7).fst [Msg.callDelegateFlip]).map
        (fun s => s.delegate_to_read) = some (some 99) ∧
    some (99 : Nat) ≠ some (7 : Nat) := by
  exact ⟨rfl, by decide⟩

/-- C4 (amended): the delegator's own code never writes `delegate_to`
after construction, so as long as no successful delegate invocation
rewrites the `delegate_to` slot, the stored hash after any sequence of
message calls is still the `code_hash` passed to `new`. -/
theorem C4_delegate_target_stable (env : DelegateEnv)
    (henv : ∀ r s s', env r s = some s' → s'.delegate_to = s.delegate_to)
    (init_value : Bool) (code_hash : Hash) (msgs : List Msg) (s' : CrossContractFlipper)
    (hr : run env (CrossContractFlipper.new init_value code_hash).fst msgs = some s') :
    s'.delegate_to_read = some code_hash := by
  have h1 := run_preserves_delegate_to env henv msgs _ s' hr
  unfold CrossContractFlipper.delegate_to_read
  rw [h1]
  rfl

/-- Witness for the amended C4: under a value-toggling host, after
`new false 7` and the messages flip-then-get, the stored hash is 7. -/
theorem C4_witness :
    ({ value := true, delegate_to := ⟨some 7⟩ } : CrossContractFlipper).delegate_to_read
      = some 7 :=
  C4_delegate_target_stable env_toggle
    (by intro r s s' hx; cases hx; rfl)
    false 7 [Msg.callDelegateFlip, Msg.getValue]
    { value := true, delegate_to := ⟨some 7⟩ } rfl

/-- C5: construction's effects, in program order, are (1) the storage
write of `code_hash` into the delegate-target slot, (2) the
dependency-lock registration, (3) the storage write of `init_value`
into `value`; and the lock registration precedes every other externally
observable effect of construction, being in fact the only one (the two
storage writes stay inside the transaction until commit). -/
theorem C5_construction_effect_order (init_value : Bool) (code_hash : Hash) :
    (CrossContractFlipper.new init_value code_hash).snd =
      [Effect.storeDelegateTo code_hash,
       Effect.lockDelegateDependency code_hash,
       Effect.storeValue init_value] ∧
    ∀ e ∈ (CrossContractFlipper.new init_value code_hash).snd,
      e.observable = true → e = Effect.lockDelegateDependency code_hash := by
  refine ⟨rfl, ?_⟩
  intro e he hobs
  simp only [CrossContractFlipper.new, List.mem_cons, List.mem_singleton,
    List.not_mem_nil, or_false] at he
  rcases he with h1 | h2 | h3
  · subst h1; simp [Effect.observable] at hobs
  · subst h2; rfl
  · subst h3; simp [Effect.observable] at hobs

/-- Witness for C5 at `new false 7`. -/
theorem C5_witness :
    (CrossContractFlipper.new false 7).snd =
      [Effect.storeDelegateTo 7,
       Effect.lockDelegateDependency 7,
       Effect.storeValue false] ∧
    ∀ e ∈ (CrossContractFlipper.new false 7).snd,
      e.observable = true → e = Effect.lockDelegateDependency 7 :=
  C5_construction_effect_order false 7

/-- Counterexample to C6 as stated: the `delegate_to` field is declared
`Lazy<Hash>` with the *default* key parameter, so its slot key is
derived automatically by the storage codegen, not assigned explicitly —
no key assignment of the form `manualKey k` appears in the layout
(`ManualKey` is imported on src/lib.rs line 25 but never used). -/
theorem C6_counterexample :
    (crossContractFlipperFields.getD 1
        { name := "", layout := FieldLayout.packedInRoot }).name = "delegate_to" ∧
    ¬ ∃ key : Nat,
      (crossContractFlipperFields.getD 1
          { name := "", layout := FieldLayout.packedInRoot }).layout
        = FieldLayout.lazySlot (KeyAssignment.manualKey key) := by
  refine ⟨rfl, ?_⟩
  rintro ⟨key, hk⟩
  simp [crossContractFlipperFields] at hk

/-- C6 (amended): `value` is packed into the fixed well-known root
slot and `delegate_to` lives in a separate, lazily loaded slot — but
that slot's key is the codegen-derived default (`AutoKey`), not a
manually assigned one. -/
theorem C6_storage_layout :
    crossContractFlipperFields =
      [{ name := "value", layout := FieldLayout.packedInRoot },
       { name := "delegate_to", layout := FieldLayout.lazySlot KeyAssignment.autoKey }] ∧
    FieldLayout.packedInRoot ≠ FieldLayout.lazySlot KeyAssignment.autoKey :=
  ⟨rfl, by decide⟩

/-- C7: whenever the target hash `h` is stored, `call_delegate_flip`
issues exactly one invocation: a delegate call against `h`, with only
the tail-call flag set, the selector equal to the 4-byte BLAKE2b-256
derivation from the literal name "flip", no arguments, and the unit
return type. -/
theorem C7_delegate_call_shape (env : DelegateEnv) (s : CrossContractFlipper) (h : Hash)
    (hs : s.delegate_to_read = some h) :
    (call_delegate_flip env s).map Prod.snd = some [Effect.invokeDelegate (flipRequest h)] ∧
    flipRequest h =
      { target := h
        flags := { forward_input := false, clone_input := false,
                   tail_call := true, allow_reentry := false }
        selector := selector_of_name "flip"
        args := []
        returns_unit := true } := by
  refine ⟨call_delegate_flip_trace env s h hs, ?_⟩
  rw [flip_selector_derivation]
  rfl

/-- Witness for C7 at the post-construction state of `new true 5`. -/
theorem C7_witness :
    (call_delegate_flip env_fail (CrossContractFlipper.new true 5).fst).map Prod.snd
      = some [Effect.invokeDelegate (flipRequest 5)] ∧
    flipRequest 5 =
      { target := 5
        flags := { forward_input := false, clone_input := false,
                   tail_call := true, allow_reentry := false }
        selector := selector_of_name "flip"
        args := []
        returns_unit := true } :=
  C7_delegate_call_shape env_fail (CrossContractFlipper.new true 5).fst 5 rfl

/-- C8: when the delegate target is absent from storage,
`call_delegate_flip` (through the private accessor's `.expect`) is a
fatal abort — it does not return, normally or with an error; and for
every state produced by `new`, the target is present (equal to the
constructor's `code_hash`), so the abort branch is unreachable. -/
theorem C8_absent_target_aborts :
    (∀ s : CrossContractFlipper, s.delegate_to_read = none →
        ∀ env : DelegateEnv, call_delegate_flip env s = none) ∧
    (∀ (init_value : Bool) (code_hash : Hash),
        (CrossContractFlipper.new init_value code_hash).fst.delegate_to_read
          = some code_hash) := by
  refine ⟨?_, fun _ _ => rfl⟩
  intro s hnone env
  unfold call_delegate_flip
  rw [hnone]

/-- Witness for C8: a state with an unwritten lazy cell aborts the flip
message, and `new false 7` stores target 7. -/
theorem C8_witness :
    call_delegate_flip env_toggle { value := false, delegate_to := Ink.Lazy.new } = none ∧
    (CrossContractFlipper.new false 7).fst.delegate_to_read = some 7 :=
  ⟨C8_absent_target_aborts.1 { value := false, delegate_to := Ink.Lazy.new } rfl env_toggle,
   C8_absent_target_aborts.2 false 7⟩

/-- C9: construction locks exactly the hash it stores as the delegate
target, and a `call_delegate_flip` from the constructed state delegates
to that same hash — the code whose removal the lock prevents. -/
theorem C9_lock_matches_delegate_target (init_value : Bool) (code_hash : Hash)
    (env : DelegateEnv) :
    Effect.lockDelegateDependency code_hash ∈ (CrossContractFlipper.new init_value code_hash).snd ∧
    (CrossContractFlipper.new init_value code_hash).fst.delegate_to_read = some code_hash ∧
    (call_delegate_flip env (CrossContractFlipper.new init_value code_hash).fst).map Prod.snd
      = some [Effect.invokeDelegate (flipRequest code_hash)] ∧
    (flipRequest code_hash).target = code_hash := by
  refine ⟨?_, rfl, ?_, rfl⟩
  · simp [CrossContractFlipper.new]
  · exact call_delegate_flip_trace env _ code_hash rfl

/-- C10: `get()` never reads the delegate-target slot — its result
depends only on the `value` field — and it is total (type `Bool`, no
panic path), returning normally even from the broken state with an
unwritten `delegate_to` cell, the very state in which
`call_delegate_flip` aborts. -/
theorem C10_get_total_no_delegate_read :
    (∀ (v : Bool) (d d' : Ink.Lazy Hash),
        CrossContractFlipper.get { value := v, delegate_to := d }
          = CrossContractFlipper.get { value := v, delegate_to := d' }) ∧
    (∀ v : Bool, CrossContractFlipper.get { value := v, delegate_to := Ink.Lazy.new } = v) ∧
    (∀ (v : Bool) (env : DelegateEnv),
        call_delegate_flip env { value := v, delegate_to := Ink.Lazy.new } = none) :=
  ⟨fun _ _ _ => rfl, fun _ => rfl, fun _ _ => rfl⟩

end Flipper
